import Mathlib

/-!
Skyline GPU interconnect: command nodes and texture formats.

A shallow embedding of `skyline/gpu/interconnect/command_nodes.h` and
`skyline/gpu/texture/format.h`.

Recording on a Vulkan command buffer is write-only, so an invocation is
modelled by the list of native calls it issues, in issue order.  A stored
`std::function` is a closure: besides issuing calls it may read and write
state it captures or shares with other callbacks, so it is a function of its
arguments and of that state, giving the calls issued and the state left.  Handles
(`vk::raii::CommandBuffer &`, `std::shared_ptr<FenceCycle>`, `vk::RenderPass`,
`vk::ImageView`) are natural numbers; `u32` values are natural numbers.
-/

namespace skyline.gpu

/-! ## Vulkan vocabulary -/

namespace vk

/-- The `vk::SubpassContents` enumeration. -/
inductive SubpassContents where
  | eInline
  | eSecondaryCommandBuffers
  deriving DecidableEq, Repr

/-- The `vk::AttachmentLoadOp` enumeration. -/
inductive AttachmentLoadOp where
  | eLoad
  | eClear
  | eDontCare
  deriving DecidableEq, Repr

/-- The `vk::AttachmentStoreOp` enumeration. -/
inductive AttachmentStoreOp where
  | eStore
  | eDontCare
  deriving DecidableEq, Repr

/-- The `vk::Rect2D` structure. -/
structure Rect2D where
  x : Int
  y : Int
  width : Nat
  height : Nat
  deriving DecidableEq, Repr

/-- The `vk::ClearColorValue` union, read through its `uint32` member. -/
structure ClearColorValue where
  uint32 : List Nat
  deriving DecidableEq, Repr

/-- The `vk::ClearDepthStencilValue` structure; `depth` holds the bit pattern of the float. -/
structure ClearDepthStencilValue where
  depth : Nat
  stencil : Nat
  deriving DecidableEq, Repr

/-- The `vk::ClearValue` union. -/
inductive ClearValue where
  | color (value : ClearColorValue)
  | depthStencil (value : ClearDepthStencilValue)
  deriving DecidableEq, Repr

/-- The `vk::AttachmentDescription` structure (the members the builder sets). -/
structure AttachmentDescription where
  format : Nat
  loadOp : AttachmentLoadOp
  storeOp : AttachmentStoreOp
  initialLayout : Nat
  finalLayout : Nat
  deriving DecidableEq, Repr

/-- The `vk::AttachmentReference` structure. -/
structure AttachmentReference where
  attachment : Nat
  layout : Nat
  deriving DecidableEq, Repr

/-- The `vk::SubpassDescription` structure.  The three pointers hold offsets (counted in
`vk::AttachmentReference` elements) relative to the beginning of the builder's
`attachmentReferences`, to be rebased on use. -/
structure SubpassDescription where
  inputAttachmentCount : Nat
  pInputAttachments : Nat
  colorAttachmentCount : Nat
  pColorAttachments : Nat
  pDepthStencilAttachment : Nat
  deriving DecidableEq, Repr

/-- The `vk::SubpassDependency` structure (the two subpass indices). -/
structure SubpassDependency where
  srcSubpass : Nat
  dstSubpass : Nat
  deriving DecidableEq, Repr

end vk

/-! ## Native calls -/

/-- A native operation observable while a node runs. -/
inductive NativeCall where
  /-- The call `commandBuffer.nextSubpass(contents)`. -/
  | nextSubpass (commandBuffer : Nat) (contents : vk.SubpassContents)
  /-- The call `commandBuffer.endRenderPass()`. -/
  | endRenderPass (commandBuffer : Nat)
  /-- The creation of a `vk::RenderPass` on the device. -/
  | createRenderPass (renderPass : Nat)
  /-- The creation of a `vk::Framebuffer` on the device. -/
  | createFramebuffer (framebuffer : Nat) (renderPass : Nat) (attachments : List Nat)
  /-- The call `commandBuffer.beginRenderPass(...)`. -/
  | beginRenderPass (commandBuffer : Nat) (renderPass : Nat) (framebuffer : Nat)
      (renderArea : vk.Rect2D) (clearValues : List vk.ClearValue)
  /-- Any other command a callback records, identified by an opcode and one operand. -/
  | command (commandBuffer : Nat) (opcode : Nat) (operand : Nat)
  deriving DecidableEq, Repr

/-- The calls issued by one invocation, in issue order. -/
abbrev Trace := List NativeCall

/-- The method `vk::raii::CommandBuffer::nextSubpass`. -/
def CommandBuffer.nextSubpass (commandBuffer : Nat) (contents : vk.SubpassContents) : Trace :=
  [NativeCall.nextSubpass commandBuffer contents]

/-- The method `vk::raii::CommandBuffer::endRenderPass`. -/
def CommandBuffer.endRenderPass (commandBuffer : Nat) : Trace :=
  [NativeCall.endRenderPass commandBuffer]

/-- Modelled from the spec: the device context `GPU &` (`gpu.h` is absent): a handle, and the
handles its device hands out when a render pass or a framebuffer is created. -/
structure GPU where
  handle : Nat
  createRenderPass : List vk.AttachmentDescription → List vk.SubpassDescription →
    List vk.SubpassDependency → Nat
  createFramebuffer : Nat → List Nat → vk.Rect2D → Nat

namespace interconnect.node

/-! ## Function nodes -/

/-- The argument pack of the default `FunctionSignature`:
`(vk::raii::CommandBuffer &, const std::shared_ptr<FenceCycle> &, GPU &)`. -/
abbrev FunctionArgs := Nat × Nat × GPU

/-- The argument pack of the subpass signature: the default pack followed by
`(vk::RenderPass, u32)`. -/
abbrev SubpassFunctionArgs := Nat × Nat × GPU × Nat × Nat

/-- A generic node for simply executing a function; `Args` is the argument pack of
`FunctionSignature` and `σ` the state the stored closures capture or share.  The stored
`std::function` is given by the calls it issues and the state it leaves. -/
structure FunctionNodeBase (σ : Type) (Args : Type) where
  function : Args → σ → Trace × σ

/-- The call operator `FunctionNodeBase::operator()`: `function(std::forward<Args>(args)...)`. -/
def FunctionNodeBase.call {σ Args : Type} (node : FunctionNodeBase σ Args) (args : Args)
    (shared : σ) : Trace × σ :=
  node.function args shared

/-- The alias `using FunctionNode = FunctionNodeBase<>`. -/
abbrev FunctionNode (σ : Type) := FunctionNodeBase σ FunctionArgs

/-- The alias `using SubpassFunctionNode = FunctionNodeBase<void(..., vk::RenderPass, u32)>`. -/
abbrev SubpassFunctionNode (σ : Type) := FunctionNodeBase σ SubpassFunctionArgs

/-- A node which progresses to the next subpass during a render pass. -/
structure NextSubpassNode where
  deriving DecidableEq, Repr

/-- The call operator `NextSubpassNode::operator()`. -/
def NextSubpassNode.call (_node : NextSubpassNode) (commandBuffer : Nat) (_cycle : Nat)
    (_gpu : GPU) : Trace :=
  CommandBuffer.nextSubpass commandBuffer vk.SubpassContents.eInline

/-- A FunctionNode which progresses to the next subpass prior to calling the function
(`struct NextSubpassFunctionNode : private SubpassFunctionNode`). -/
structure NextSubpassFunctionNode (σ : Type) where
  base : SubpassFunctionNode σ

/-- The call operator `NextSubpassFunctionNode::operator()`: the next-subpass command is
recorded, then the call operator of the base runs. -/
def NextSubpassFunctionNode.call {σ : Type} (node : NextSubpassFunctionNode σ)
    (commandBuffer : Nat) (cycle : Nat) (gpu : GPU) (renderPass : Nat) (subpassIndex : Nat)
    (shared : σ) : Trace × σ :=
  let advanced := CommandBuffer.nextSubpass commandBuffer vk.SubpassContents.eInline
  let ran := node.base.call (commandBuffer, cycle, gpu, renderPass, subpassIndex) shared
  (advanced ++ ran.1, ran.2)

/-- Ends a VkRenderPass that would be created prior with RenderPassNode. -/
structure RenderPassEndNode where
  deriving DecidableEq, Repr

/-- The call operator `RenderPassEndNode::operator()`. -/
def RenderPassEndNode.call (_node : RenderPassEndNode) (commandBuffer : Nat) (_cycle : Nat)
    (_gpu : GPU) : Trace :=
  CommandBuffer.endRenderPass commandBuffer

/-! ## The render pass builder

`command_nodes.h` declares the members of `RenderPassNode`; the bodies of its member functions
live in a translation unit that is not part of the sources at hand and are modelled from the
specification. -/

/-- Modelled from the spec: the `TextureView` class (declared in `texture.h`, which is absent).
It carries the underlying image view the registry deduplicates by, and the format and current
layout the attachment description is built from. -/
structure TextureView where
  view : Nat
  format : Nat
  layout : Nat
  deriving DecidableEq, Repr

/-- Storage for all resources in the VkRenderPass that have their lifetimes bond to the
completion fence (`struct Storage : public FenceCycleDependency`); handle 0 is the null handle. -/
structure Storage where
  device : Option Nat
  framebuffer : Nat
  renderPass : Nat
  deriving DecidableEq, Repr

/-- Creates and begins a VkRenderPass alongside managing all resources bound to it and to the
subpasses inside it: the data members of `struct RenderPassNode`. -/
structure RenderPassNode where
  storage : Storage
  attachments : List Nat
  attachmentDescriptions : List vk.AttachmentDescription
  attachmentReferences : List vk.AttachmentReference
  preserveAttachmentReferences : List (List Nat)
  subpassDescriptions : List vk.SubpassDescription
  subpassDependencies : List vk.SubpassDependency
  renderArea : vk.Rect2D
  clearValues : List vk.ClearValue
  deriving DecidableEq, Repr

namespace RenderPassNode

/-- A sentinel value to denote the lack of a depth stencil attachment in a
VkSubpassDescription: `std::numeric_limits<uintptr_t>::max()` with a 64-bit `uintptr_t`. -/
def NoDepthStencil : Nat := 2 ^ 64 - 1

/-- Rebases a pointer containing an offset relative to the beginning of a container: the
elements of `container` from `offset` on. -/
def RebasePointer {T : Type} (container : List T) (offset : Nat) : List T :=
  container.drop offset

/-- Modelled from the spec: the constructor `RenderPassNode(vk::Rect2D renderArea)`, whose body
is absent: a builder with nothing registered yet. -/
def new (renderArea : vk.Rect2D) : RenderPassNode :=
  { storage := { device := none, framebuffer := 0, renderPass := 0 }
    attachments := []
    attachmentDescriptions := []
    attachmentReferences := []
    preserveAttachmentReferences := []
    subpassDescriptions := []
    subpassDependencies := []
    renderArea := renderArea
    clearValues := [] }

/-- Modelled from the spec: how the absent bodies lay out the references of a subpass; the
input attachment indices of a subpass, read through the rebased pointer. -/
def inputAttachmentsOf (attachmentReferences : List vk.AttachmentReference)
    (subpass : vk.SubpassDescription) : List Nat :=
  ((RebasePointer attachmentReferences subpass.pInputAttachments).take
    subpass.inputAttachmentCount).map (fun reference => reference.attachment)

/-- Modelled from the spec: how the absent bodies lay out the references of a subpass; the
color attachment indices of a subpass, read through the rebased pointer. -/
def colorAttachmentsOf (attachmentReferences : List vk.AttachmentReference)
    (subpass : vk.SubpassDescription) : List Nat :=
  ((RebasePointer attachmentReferences subpass.pColorAttachments).take
    subpass.colorAttachmentCount).map (fun reference => reference.attachment)

/-- Modelled from the spec: how the absent bodies lay out the references of a subpass; the
depth/stencil attachment index of a subpass, if it has one (the sentinel denotes none). -/
def depthStencilAttachmentOf (attachmentReferences : List vk.AttachmentReference)
    (subpass : vk.SubpassDescription) : List Nat :=
  if subpass.pDepthStencilAttachment = NoDepthStencil then []
  else ((RebasePointer attachmentReferences subpass.pDepthStencilAttachment).take 1).map
    (fun reference => reference.attachment)

/-- Modelled from the spec: the attachment indices a subpass references (absent bodies):
inputs, colors, then depth/stencil. -/
def subpassAttachments (attachmentReferences : List vk.AttachmentReference)
    (subpass : vk.SubpassDescription) : List Nat :=
  inputAttachmentsOf attachmentReferences subpass ++
    colorAttachmentsOf attachmentReferences subpass ++
    depthStencilAttachmentOf attachmentReferences subpass

/-- Modelled from the spec: the body of `RenderPassNode::AddAttachment` (absent).  It
deduplicates by the underlying image view: a registered view gives back its index and nothing
changes; a new view is appended with a description built from the view (load op load, store op
store, layouts from the view) and its index, the previous registry length, is returned. -/
def AddAttachment (node : RenderPassNode) (view : TextureView) : Nat × RenderPassNode :=
  let index := node.attachments.indexOf view.view
  if index < node.attachments.length then
    (index, node)
  else
    (node.attachments.length,
      { node with
        attachments := node.attachments ++ [view.view]
        attachmentDescriptions := node.attachmentDescriptions ++
          [{ format := view.format
             loadOp := vk.AttachmentLoadOp.eLoad
             storeOp := vk.AttachmentStoreOp.eStore
             initialLayout := view.layout
             finalLayout := view.layout }] })

/-- A sequence of `AddAttachment` calls on one builder: the indices returned, in call order, and
the builder afterwards. -/
def AddAttachments (node : RenderPassNode) : List TextureView → List Nat × RenderPassNode
  | [] => ([], node)
  | view :: views =>
    let first := node.AddAttachment view
    let rest := AddAttachments first.2 views
    (first.1 :: rest.1, rest.2)

/-- Modelled from the spec: a step of the absent body of `AddSubpass`, one attachment of the
subpass being bound: the view is resolved through `AddAttachment` and a
reference to the index it gives is appended to `attachmentReferences`. -/
def bindAttachment (node : RenderPassNode) (view : TextureView) : RenderPassNode :=
  let resolved := node.AddAttachment view
  { resolved.2 with
    attachmentReferences := resolved.2.attachmentReferences ++
      [{ attachment := resolved.1, layout := view.layout }] }

/-- Modelled from the spec: a step of the absent body of `AddSubpass`, the attachments of one
kind bound in the specified order. -/
def bindAttachments (node : RenderPassNode) (views : List TextureView) : RenderPassNode :=
  views.foldl bindAttachment node

/-- Modelled from the spec: a step of the absent body of `AddSubpass`, the index of the last
subpass among `subpasses` that references `attachment`, if any. -/
def lastReferencing (attachmentReferences : List vk.AttachmentReference)
    (subpasses : List vk.SubpassDescription) (attachment : Nat) : Option Nat :=
  ((List.range subpasses.length).reverse.find? (fun index =>
    match subpasses[index]? with
    | some subpass => (subpassAttachments attachmentReferences subpass).contains attachment
    | none => false))

/-- Modelled from the spec: a step of the absent body of `AddSubpass`, the access pattern of a
subpass on an attachment: whether it reads it (input) and whether it
writes it (color or depth/stencil). -/
def accessPattern (attachmentReferences : List vk.AttachmentReference)
    (subpass : vk.SubpassDescription) (attachment : Nat) : Bool × Bool :=
  ((inputAttachmentsOf attachmentReferences subpass).contains attachment,
    (colorAttachmentsOf attachmentReferences subpass).contains attachment ||
      (depthStencilAttachmentOf attachmentReferences subpass).contains attachment)

/-- Modelled from the spec: a step of the absent body of `AddSubpass`, the dependencies a new
subpass implies: one edge from the last subpass referencing an
attachment to the new subpass whenever the access pattern of the attachment changes. -/
def impliedDependencies (attachmentReferences : List vk.AttachmentReference)
    (subpasses : List vk.SubpassDescription) (description : vk.SubpassDescription) :
    List vk.SubpassDependency :=
  (subpassAttachments attachmentReferences description).eraseDups.filterMap (fun attachment =>
    match lastReferencing attachmentReferences subpasses attachment with
    | none => none
    | some index =>
      match subpasses[index]? with
      | none => none
      | some previous =>
        if accessPattern attachmentReferences previous attachment =
            accessPattern attachmentReferences description attachment then none
        else some { srcSubpass := index, dstSubpass := subpasses.length })

/-- Modelled from the spec: a step of the absent body of `AddSubpass`, the preserve list of a
new subpass: every index of the registry, in attachment-index order,
that the new subpass does not reference though another subpass of the pass does. -/
def preserveList (attachmentCount : Nat) (attachmentReferences : List vk.AttachmentReference)
    (subpasses : List vk.SubpassDescription) (description : vk.SubpassDescription) : List Nat :=
  (List.range attachmentCount).filter (fun attachment =>
    !(subpassAttachments attachmentReferences description).contains attachment &&
      subpasses.any (fun other =>
        (subpassAttachments attachmentReferences other).contains attachment))

/-- Modelled from the spec: the body of `RenderPassNode::AddSubpass` (absent).  It creates a
subpass with the attachments bound in the specified order, each resolved through
`AddAttachment`; gives the subpass its preserve list; appends the dependencies implied by a
change of access pattern; and appends the subpass description. -/
def AddSubpass (node : RenderPassNode) (inputAttachments colorAttachments : List TextureView)
    (depthStencilAttachment : Option TextureView) : RenderPassNode :=
  let inputAttachmentsOffset := node.attachmentReferences.length
  let withInputs := node.bindAttachments inputAttachments
  let colorAttachmentsOffset := withInputs.attachmentReferences.length
  let withColors := withInputs.bindAttachments colorAttachments
  let depthStencilAttachmentOffset :=
    match depthStencilAttachment with
    | some _ => withColors.attachmentReferences.length
    | none => NoDepthStencil
  let bound :=
    match depthStencilAttachment with
    | some view => withColors.bindAttachment view
    | none => withColors
  let description : vk.SubpassDescription :=
    { inputAttachmentCount := inputAttachments.length
      pInputAttachments := inputAttachmentsOffset
      colorAttachmentCount := colorAttachments.length
      pColorAttachments := colorAttachmentsOffset
      pDepthStencilAttachment := depthStencilAttachmentOffset }
  { bound with
    preserveAttachmentReferences := bound.preserveAttachmentReferences ++
      [preserveList bound.attachments.length bound.attachmentReferences
        bound.subpassDescriptions description]
    subpassDependencies := bound.subpassDependencies ++
      impliedDependencies bound.attachmentReferences bound.subpassDescriptions description
    subpassDescriptions := bound.subpassDescriptions ++ [description] }

/-- Modelled from the spec: a step of the absent clear bodies, the clear value slot of an
attachment set, the vector grown to reach the slot if needed. -/
def recordClearValue (clearValues : List vk.ClearValue) (attachment : Nat)
    (value : vk.ClearValue) : List vk.ClearValue :=
  (clearValues ++ List.replicate (attachment + 1 - clearValues.length)
    (vk.ClearValue.color { uint32 := [0, 0, 0, 0] })).set attachment value

/-- Modelled from the spec: a step of the absent clear bodies, the description of an attachment
switched to a clear load op and its clear value recorded. -/
def commitClear (node : RenderPassNode) (attachment : Nat) (value : vk.ClearValue) :
    RenderPassNode :=
  { node with
    attachmentDescriptions := node.attachmentDescriptions.modify
      (fun description => { description with loadOp := vk.AttachmentLoadOp.eClear }) attachment
    clearValues := recordClearValue node.clearValues attachment value }

/-- Modelled from the spec: the body of `RenderPassNode::ClearColorAttachment` (absent).  With
no subpass attached it returns false and changes nothing.  Otherwise `colorAttachment` indexes
the color attachments bound to the current (last) subpass; an index out of their range is a
precondition violation (`none`).  The clear is committed unless `conflict`, the predicate telling
whether the load op of the target attachment is already fixed by another operation, holds; the
specification leaves that predicate open, so it is a parameter. -/
def ClearColorAttachment (conflict : RenderPassNode → Nat → Bool) (node : RenderPassNode)
    (colorAttachment : Nat) (value : vk.ClearColorValue) : Option (Bool × RenderPassNode) :=
  match node.subpassDescriptions.getLast? with
  | none => some (false, node)
  | some subpass =>
    match (colorAttachmentsOf node.attachmentReferences subpass)[colorAttachment]? with
    | none => none
    | some attachment =>
      if conflict node attachment then some (false, node)
      else some (true, node.commitClear attachment (vk.ClearValue.color value))

/-- Modelled from the spec: the body of `RenderPassNode::ClearDepthStencilAttachment` (absent).
As `ClearColorAttachment`, on the depth/stencil attachment of the current subpass; a current
subpass without one is a precondition violation (`none`). -/
def ClearDepthStencilAttachment (conflict : RenderPassNode → Nat → Bool) (node : RenderPassNode)
    (value : vk.ClearDepthStencilValue) : Option (Bool × RenderPassNode) :=
  match node.subpassDescriptions.getLast? with
  | none => some (false, node)
  | some subpass =>
    match (depthStencilAttachmentOf node.attachmentReferences subpass).head? with
    | none => none
    | some attachment =>
      if conflict node attachment then some (false, node)
      else some (true, node.commitClear attachment (vk.ClearValue.depthStencil value))

/-- Modelled from the spec: the body of `RenderPassNode::operator()` (absent).  It creates the
render pass from the accumulated descriptions, creates a matching framebuffer from the bound
image views and the render area, begins the render pass on the command buffer with the
accumulated clear values, and returns the render pass handle. -/
def call (node : RenderPassNode) (commandBuffer : Nat) (_cycle : Nat) (gpu : GPU) :
    Nat × Trace :=
  let renderPass := gpu.createRenderPass node.attachmentDescriptions node.subpassDescriptions
    node.subpassDependencies
  let framebuffer := gpu.createFramebuffer renderPass node.attachments node.renderArea
  (renderPass,
    [NativeCall.createRenderPass renderPass,
     NativeCall.createFramebuffer framebuffer renderPass node.attachments,
     NativeCall.beginRenderPass commandBuffer renderPass framebuffer node.renderArea
       node.clearValues])

end RenderPassNode

/-- A variant encompassing all command nodes types (`NodeVariant`). -/
inductive NodeVariant (σ : Type) where
  | functionNode (node : FunctionNode σ)
  | renderPassNode (node : RenderPassNode)
  | nextSubpassNode (node : NextSubpassNode)
  | subpassFunctionNode (node : SubpassFunctionNode σ)
  | nextSubpassFunctionNode (node : NextSubpassFunctionNode σ)
  | renderPassEndNode (node : RenderPassEndNode)

/-! ## Replay of a node sequence -/

/-- Modelled from the spec: what the command buffer recorder (absent) holds between nodes: the
native handle of the active render pass and the current subpass index (a `u32`). -/
structure RecorderState where
  renderPass : Nat
  subpassIndex : Nat
  deriving DecidableEq, Repr

/-- Modelled from the spec: the recorder (absent) invoking one node against (command buffer,
completion handle, device context[, active render pass, subpass index]).  The render pass
builder gives the handle later nodes receive and starts at subpass 0; a node that advances to
the next subpass moves the index on, and a subpass function that advances receives the new
index.  Each node does what its own call operator does; the state is what the recorder holds
together with the state the callbacks share. -/
def invoke {σ : Type} (commandBuffer cycle : Nat) (gpu : GPU) (state : RecorderState × σ) :
    NodeVariant σ → (RecorderState × σ) × Trace
  | NodeVariant.functionNode node =>
    let ran := node.call (commandBuffer, cycle, gpu) state.2
    ((state.1, ran.2), ran.1)
  | NodeVariant.renderPassNode node =>
    let begun := node.call commandBuffer cycle gpu
    (({ renderPass := begun.1, subpassIndex := 0 }, state.2), begun.2)
  | NodeVariant.nextSubpassNode node =>
    (({ state.1 with subpassIndex := (state.1.subpassIndex + 1) % 2 ^ 32 }, state.2),
      node.call commandBuffer cycle gpu)
  | NodeVariant.subpassFunctionNode node =>
    let ran := node.call
      (commandBuffer, cycle, gpu, state.1.renderPass, state.1.subpassIndex) state.2
    ((state.1, ran.2), ran.1)
  | NodeVariant.nextSubpassFunctionNode node =>
    let subpassIndex := (state.1.subpassIndex + 1) % 2 ^ 32
    let ran := node.call commandBuffer cycle gpu state.1.renderPass subpassIndex state.2
    (({ state.1 with subpassIndex := subpassIndex }, ran.2), ran.1)
  | NodeVariant.renderPassEndNode node => (state, node.call commandBuffer cycle gpu)

/-- Modelled from the spec: the recorder (absent) walking the node sequence once, in order,
against one command buffer; the calls of each node are appended to those issued so far. -/
def replay {σ : Type} (commandBuffer cycle : Nat) (gpu : GPU) (state : RecorderState × σ)
    (nodes : List (NodeVariant σ)) : (RecorderState × σ) × Trace :=
  nodes.foldl (fun recorded node =>
    let invoked := invoke commandBuffer cycle gpu recorded.1 node
    (invoked.1, recorded.2 ++ invoked.2)) (state, [])

/-- The trace of each node of a sequence, in list order, each node's trace being what it issues
when the recorder reaches it. -/
def nodeTraces {σ : Type} (commandBuffer cycle : Nat) (gpu : GPU) :
    RecorderState × σ → List (NodeVariant σ) → List Trace
  | _, [] => []
  | state, node :: nodes =>
    (invoke commandBuffer cycle gpu state node).2 ::
      nodeTraces commandBuffer cycle gpu (invoke commandBuffer cycle gpu state node).1 nodes

/-! ## Lifetime of the builder's `Storage` -/

/-- Modelled from the spec: the shared ownership of the builder's `Storage` and the completion
dependency registry (`FenceCycle`, absent).  The storage is owned by reference count: one
reference is the builder's `std::shared_ptr<Storage> storage`, one is held by the fence cycle
from registration until its completion condition is satisfied.  `destroyed` counts the runs of
`~Storage`, which releases the framebuffer and the render pass. -/
structure StorageLifetime where
  builderHolds : Bool
  cycleHolds : Bool
  registered : Bool
  signalled : Bool
  destroyed : Nat
  deriving DecidableEq, Repr

/-- Modelled from the spec: the events of the absent completion machinery.  What can happen to
the storage: it is registered against the completion cycle, the builder
(with its graph) is discarded, the completion condition of the cycle becomes satisfied. -/
inductive LifetimeEvent where
  | register
  | discard
  | signal
  deriving DecidableEq, Repr

namespace StorageLifetime

/-- Modelled from the spec: the storage a freshly constructed builder holds (the constructor
body is absent): the builder has the only reference. -/
def initial : StorageLifetime :=
  { builderHolds := true, cycleHolds := false, registered := false, signalled := false,
    destroyed := 0 }

/-- Modelled from the spec: shared ownership (`std::shared_ptr`, `~Storage` absent).  A
reference has just been dropped: the destructor runs if it was the last one. -/
def dropped (lifetime : StorageLifetime) : StorageLifetime :=
  if !lifetime.builderHolds && !lifetime.cycleHolds then
    { lifetime with destroyed := lifetime.destroyed + 1 }
  else lifetime

/-- Modelled from the spec: one event of the absent completion machinery.  Only a living
builder can register its storage, and the cycle keeps a reference
only while its completion condition is not satisfied. -/
def step (lifetime : StorageLifetime) : LifetimeEvent → StorageLifetime
  | LifetimeEvent.register =>
    if lifetime.builderHolds then
      { lifetime with registered := true, cycleHolds := !lifetime.signalled }
    else lifetime
  | LifetimeEvent.discard =>
    if lifetime.builderHolds then dropped { lifetime with builderHolds := false }
    else lifetime
  | LifetimeEvent.signal =>
    if lifetime.cycleHolds then dropped { lifetime with signalled := true, cycleHolds := false }
    else { lifetime with signalled := true }

/-- A run of events, in order. -/
def run (lifetime : StorageLifetime) (events : List LifetimeEvent) : StorageLifetime :=
  events.foldl step lifetime

/-- What holds of the storage at every moment of its life. -/
def Invariant (lifetime : StorageLifetime) : Prop :=
  (lifetime.destroyed = if !lifetime.builderHolds && !lifetime.cycleHolds then 1 else 0) ∧
  lifetime.cycleHolds = (lifetime.registered && !lifetime.signalled)

end StorageLifetime

/-! ## Data of the worked examples -/

/-- A device context for the worked examples. -/
def exampleGPU : GPU :=
  { handle := 1, createRenderPass := fun _ _ _ => 10, createFramebuffer := fun _ _ _ => 11 }

/-- A subpass callback for the worked examples: it records one command with the given opcode on
the command buffer it receives, the operand being the subpass index it receives; it leaves the
shared state, a counter, alone. -/
def drawInSubpass (opcode : Nat) : SubpassFunctionArgs → Nat → Trace × Nat :=
  fun args count => ([NativeCall.command args.1 opcode args.2.2.2.2], count)

/-- A callback for the worked examples, a closure over a counter shared with other callbacks: it
records one command with the given opcode whose operand is the counter, and counts up. -/
def drawCounted (opcode : Nat) : FunctionArgs → Nat → Trace × Nat :=
  fun args count => ([NativeCall.command args.1 opcode count], count + 1)

/-- A fresh builder for the worked examples. -/
def exampleBuilder : RenderPassNode := RenderPassNode.new ⟨0, 0, 64, 64⟩

/-- A texture view for the worked examples (viewA). -/
def viewA : TextureView := ⟨100, 37, 2⟩

/-- A texture view for the worked examples (viewB), on another image view than viewA. -/
def viewB : TextureView := ⟨200, 37, 2⟩

/-- A callback for the worked examples: it records one command with the given opcode on the
command buffer it receives, whatever the shared state, which it leaves alone. -/
def draw (opcode : Nat) : FunctionArgs → Nat → Trace × Nat :=
  fun args count => ([NativeCall.command args.1 opcode 0], count)

/-- A builder for the worked examples with three subpasses declared, so that a render pass it
begins admits two subpass transitions. -/
def exampleRenderPass : RenderPassNode :=
  ((exampleBuilder.AddSubpass [] [viewA] none).AddSubpass [viewA] [viewB] none).AddSubpass
    [viewB] [viewA] none

end interconnect.node

/-! ## Texture formats (`format.h`) -/

namespace format

/-- The arguments `FORMAT` forwards through `__VA_ARGS__`: an image aspect and the designated
initializers that occur in the table. -/
structure FormatArgs where
  vkAspect : List String := []
  blockWidth : Option Nat := none
  blockHeight : Option Nat := none
  swapRedBlue : Option Bool := none
  deriving DecidableEq, Repr

/-- The `gpu::texture::FormatBase` aggregate as `FORMAT` initializes it: bytes per block first,
the `vk::Format` enumerator second, then the forwarded arguments. -/
structure FormatBase where
  bpb : Nat
  vkFormat : String
  args : FormatArgs
  deriving DecidableEq, Repr

/-- One `constexpr` declaration of the table: the declared name, the `bitsPerBlock` argument the
declaring line passes, and the constant defined. -/
structure Declaration where
  name : String
  bitsPerBlock : Nat
  value : FormatBase
  deriving DecidableEq, Repr

/-- `FORMAT(name, bitsPerBlock, format, ...)`:
`constexpr gpu::texture::FormatBase name{bitsPerBlock / 8, vk::Format::format, ##__VA_ARGS__}`. -/
def FORMAT (name : String) (bitsPerBlock : Nat) (format : String) (args : FormatArgs := {}) :
    List Declaration :=
  [{ name := name, bitsPerBlock := bitsPerBlock,
     value := { bpb := bitsPerBlock / 8, vkFormat := format, args := args } }]

/-- `FORMAT_SUFF_UNORM_SRGB(name, bitsPerBlock, format, fmtSuffix, ...)`. -/
def FORMAT_SUFF_UNORM_SRGB (name : String) (bitsPerBlock : Nat) (format fmtSuffix : String)
    (args : FormatArgs := {}) : List Declaration :=
  FORMAT (name ++ "Unorm") bitsPerBlock (format ++ "Unorm" ++ fmtSuffix) args ++
  FORMAT (name ++ "Srgb") bitsPerBlock (format ++ "Srgb" ++ fmtSuffix) args

/-- `FORMAT_SUFF_INT(name, bitsPerBlock, format, fmtSuffix, ...)`. -/
def FORMAT_SUFF_INT (name : String) (bitsPerBlock : Nat) (format fmtSuffix : String)
    (args : FormatArgs := {}) : List Declaration :=
  FORMAT (name ++ "Uint") bitsPerBlock (format ++ "Uint" ++ fmtSuffix) args ++
  FORMAT (name ++ "Sint") bitsPerBlock (format ++ "Sint" ++ fmtSuffix) args

/-- `FORMAT_INT(name, bitsPerBlock, format, ...)`. -/
def FORMAT_INT (name : String) (bitsPerBlock : Nat) (format : String)
    (args : FormatArgs := {}) : List Declaration :=
  FORMAT_SUFF_INT name bitsPerBlock format "" args

/-- `FORMAT_SUFF_INT_FLOAT(name, bitsPerBlock, format, fmtSuffix, ...)`. -/
def FORMAT_SUFF_INT_FLOAT (name : String) (bitsPerBlock : Nat) (format fmtSuffix : String)
    (args : FormatArgs := {}) : List Declaration :=
  FORMAT_SUFF_INT name bitsPerBlock format fmtSuffix args ++
  FORMAT (name ++ "Float") bitsPerBlock (format ++ "Sfloat" ++ fmtSuffix) args

/-- `FORMAT_INT_FLOAT(name, bitsPerBlock, format, ...)`. -/
def FORMAT_INT_FLOAT (name : String) (bitsPerBlock : Nat) (format : String)
    (args : FormatArgs := {}) : List Declaration :=
  FORMAT_SUFF_INT_FLOAT name bitsPerBlock format "" args

/-- `FORMAT_SUFF_NORM(name, bitsPerBlock, format, fmtSuffix, ...)`. -/
def FORMAT_SUFF_NORM (name : String) (bitsPerBlock : Nat) (format fmtSuffix : String)
    (args : FormatArgs := {}) : List Declaration :=
  FORMAT (name ++ "Unorm") bitsPerBlock (format ++ "Unorm" ++ fmtSuffix) args ++
  FORMAT (name ++ "Snorm") bitsPerBlock (format ++ "Snorm" ++ fmtSuffix) args

/-- `FORMAT_SUFF_NORM_INT(name, bitsPerBlock, format, fmtSuffix, ...)`. -/
def FORMAT_SUFF_NORM_INT (name : String) (bitsPerBlock : Nat) (format fmtSuffix : String)
    (args : FormatArgs := {}) : List Declaration :=
  FORMAT_SUFF_INT name bitsPerBlock format fmtSuffix args ++
  FORMAT_SUFF_NORM name bitsPerBlock format fmtSuffix args

/-- `FORMAT_NORM_INT(name, bitsPerBlock, format, ...)`. -/
def FORMAT_NORM_INT (name : String) (bitsPerBlock : Nat) (format : String)
    (args : FormatArgs := {}) : List Declaration :=
  FORMAT_SUFF_NORM_INT name bitsPerBlock format "" args

/-- `FORMAT_SUFF_NORM_INT_SRGB(name, bitsPerBlock, format, fmtSuffix, ...)`. -/
def FORMAT_SUFF_NORM_INT_SRGB (name : String) (bitsPerBlock : Nat) (format fmtSuffix : String)
    (args : FormatArgs := {}) : List Declaration :=
  FORMAT_SUFF_NORM_INT name bitsPerBlock format fmtSuffix args ++
  FORMAT (name ++ "Srgb") bitsPerBlock (format ++ "Srgb" ++ fmtSuffix) args

/-- `FORMAT_NORM_INT_SRGB(name, bitsPerBlock, format, ...)`. -/
def FORMAT_NORM_INT_SRGB (name : String) (bitsPerBlock : Nat) (format : String)
    (args : FormatArgs := {}) : List Declaration :=
  FORMAT_SUFF_NORM_INT_SRGB name bitsPerBlock format "" args

/-- `FORMAT_SUFF_NORM_INT_FLOAT(name, bitsPerBlock, format, fmtSuffix, ...)`. -/
def FORMAT_SUFF_NORM_INT_FLOAT (name : String) (bitsPerBlock : Nat) (format fmtSuffix : String)
    (args : FormatArgs := {}) : List Declaration :=
  FORMAT_SUFF_NORM_INT name bitsPerBlock format fmtSuffix args ++
  FORMAT (name ++ "Float") bitsPerBlock (format ++ "Sfloat" ++ fmtSuffix) args

/-- `FORMAT_NORM_INT_FLOAT(name, bitsPerBlock, format, ...)`. -/
def FORMAT_NORM_INT_FLOAT (name : String) (bitsPerBlock : Nat) (format : String)
    (args : FormatArgs := {}) : List Declaration :=
  FORMAT_SUFF_NORM_INT_FLOAT name bitsPerBlock format "" args

/-- The `.blockWidth = 4, .blockHeight = 4` initializers of the compressed formats. -/
def block4x4 : FormatArgs := { blockWidth := some 4, blockHeight := some 4 }

/-- The `.vkAspect = { vka::eStencil | vka::eDepth }` initializer. -/
def depthStencilAspect : FormatArgs := { vkAspect := ["eStencil", "eDepth"] }

/-- Colour formats, lines 62 to 83 of `format.h`, in declaration order. -/
def colorFormats : List Declaration :=
  FORMAT_NORM_INT_SRGB "R8" 8 "eR8" ++
  FORMAT_NORM_INT_FLOAT "R16" 16 "eR16" ++
  FORMAT_NORM_INT_SRGB "R8G8" 16 "eR8G8" ++
  FORMAT "B5G6R5Unorm" 16 "eB5G6R5UnormPack16" ++
  FORMAT "R5G6B5Unorm" 16 "eB5G6R5UnormPack16" { swapRedBlue := some true } ++
  FORMAT "B5G5R5A1Unorm" 16 "eB5G5R5A1UnormPack16" ++
  FORMAT "A1B5G5R5Unorm" 16 "eA1R5G5B5UnormPack16" { swapRedBlue := some true } ++
  FORMAT_INT_FLOAT "R32" 32 "eR32" ++
  FORMAT_NORM_INT_FLOAT "R16G16" 32 "eR16G16" ++
  FORMAT "B10G11R11Float" 32 "eB10G11R11UfloatPack32" ++
  FORMAT_NORM_INT_SRGB "R8G8B8A8" 32 "eR8G8B8A8" ++
  FORMAT_NORM_INT_SRGB "B8G8R8A8" 32 "eB8G8R8A8" ++
  FORMAT_SUFF_NORM_INT "A2B10G10R10" 32 "eA2B10G10R10" "Pack32" ++
  FORMAT_SUFF_NORM_INT_SRGB "A8B8G8R8" 32 "eA8B8G8R8" "Pack32" ++
  FORMAT "E5B9G9R9Float" 32 "eE5B9G9R9UfloatPack32" ++
  FORMAT_INT_FLOAT "R32G32" (32 * 2) "eR32G32" ++
  FORMAT_NORM_INT_FLOAT "R16G16B16A16" (16 * 4) "eR16G16B16A16" ++
  FORMAT_INT_FLOAT "R32G32B32A32" (32 * 4) "eR32G32B32A32"

/-- Compressed colour formats, lines 86 to 122 of `format.h`. -/
def compressedFormats : List Declaration :=
  FORMAT_SUFF_UNORM_SRGB "BC1" 64 "eBc1Rgba" "Block" block4x4 ++
  FORMAT_SUFF_UNORM_SRGB "BC2" 64 "eBc2" "Block" block4x4 ++
  FORMAT_SUFF_UNORM_SRGB "BC3" 64 "eBc3" "Block" block4x4 ++
  FORMAT_SUFF_NORM "BC4" 64 "eBc4" "Block" block4x4 ++
  FORMAT_SUFF_UNORM_SRGB "Astc4x4" 128 "eAstc4x4" "Block" block4x4 ++
  FORMAT_SUFF_NORM "BC5" 128 "eBc5" "Block" block4x4 ++
  FORMAT "Bc6HUfloat" 128 "eBc6HUfloatBlock" block4x4 ++
  FORMAT "Bc6HSfloat" 128 "eBc6HSfloatBlock" block4x4 ++
  FORMAT_SUFF_UNORM_SRGB "BC7" 128 "eBc7" "Block" block4x4

/-- Depth and stencil formats, lines 125 to 136 of `format.h`. -/
def depthStencilFormats : List Declaration :=
  FORMAT "D16Unorm" 16 "eD16Unorm" { vkAspect := ["eDepth"] } ++
  FORMAT "D32Float" 32 "eD32Sfloat" { vkAspect := ["eDepth"] } ++
  FORMAT "D24UnormS8Uint" 32 "eD24UnormS8Uint" depthStencilAspect ++
  FORMAT "D32FloatS8Uint" 32 "eD32SfloatS8Uint" depthStencilAspect ++
  FORMAT "S8UintD24Unorm" 32 "eD24UnormS8Uint" depthStencilAspect

/-- Every format declared in namespace `skyline::gpu::format`. -/
def formats : List Declaration :=
  colorFormats ++ compressedFormats ++ depthStencilFormats

/-- The check of one declaration: the declared bits per block are a positive multiple of 8 and
the stored bytes per block are non-zero and give the bits back. -/
def Declaration.wholeBytes (d : Declaration) : Bool :=
  decide (0 < d.bitsPerBlock) && decide (d.bitsPerBlock % 8 = 0) &&
    decide (d.value.bpb ≠ 0) && decide (d.value.bpb * 8 = d.bitsPerBlock)

end format

/-! ## Theorems -/

namespace interconnect.node

namespace RenderPassNode

/-! ### Attachment registration -/

theorem AddAttachment_of_mem (node : RenderPassNode) (view : TextureView)
    (h : view.view ∈ node.attachments) :
    node.AddAttachment view = (node.attachments.indexOf view.view, node) := by
  have hlt : node.attachments.indexOf view.view < node.attachments.length :=
    List.indexOf_lt_length.mpr h
  simp [AddAttachment, hlt]

theorem AddAttachment_of_not_mem (node : RenderPassNode) (view : TextureView)
    (h : view.view ∉ node.attachments) :
    (node.AddAttachment view).1 = node.attachments.length ∧
      (node.AddAttachment view).2.attachments = node.attachments ++ [view.view] := by
  have heq : node.attachments.indexOf view.view = node.attachments.length :=
    List.indexOf_eq_length.mpr h
  simp [AddAttachment, heq]

theorem AddAttachment_registered (node : RenderPassNode) (view : TextureView) :
    view.view ∈ (node.AddAttachment view).2.attachments ∧
      (node.AddAttachment view).1 = (node.AddAttachment view).2.attachments.indexOf view.view := by
  by_cases h : view.view ∈ node.attachments
  · rw [AddAttachment_of_mem node view h]
    exact ⟨h, rfl⟩
  · obtain ⟨h1, h2⟩ := AddAttachment_of_not_mem node view h
    rw [h1, h2]
    refine ⟨by simp, ?_⟩
    rw [List.indexOf_append_of_not_mem h]
    simp

theorem AddAttachment_extends (node : RenderPassNode) (view : TextureView) :
    ∃ added, (node.AddAttachment view).2.attachments = node.attachments ++ added := by
  by_cases h : view.view ∈ node.attachments
  · exact ⟨[], by rw [AddAttachment_of_mem node view h]; simp⟩
  · exact ⟨[view.view], (AddAttachment_of_not_mem node view h).2⟩

theorem AddAttachments_extends (views : List TextureView) :
    ∀ node : RenderPassNode,
      ∃ added, (node.AddAttachments views).2.attachments = node.attachments ++ added := by
  induction views with
  | nil => intro node; exact ⟨[], by simp [AddAttachments]⟩
  | cons view views ih =>
    intro node
    obtain ⟨first, hfirst⟩ := AddAttachment_extends node view
    obtain ⟨rest, hrest⟩ := ih (node.AddAttachment view).2
    refine ⟨first ++ rest, ?_⟩
    simp only [AddAttachments]
    rw [hrest, hfirst, List.append_assoc]

theorem AddAttachments_append (before after : List TextureView) :
    ∀ node : RenderPassNode,
      node.AddAttachments (before ++ after) =
        ((node.AddAttachments before).1 ++ ((node.AddAttachments before).2.AddAttachments after).1,
          ((node.AddAttachments before).2.AddAttachments after).2) := by
  induction before with
  | nil => intro node; simp [AddAttachments]
  | cons view before ih =>
    intro node
    have hrest := ih (node.AddAttachment view).2
    rw [List.cons_append]
    simp only [AddAttachments]
    rw [hrest]
    simp

/-- C1: on one builder, in any sequence of AddAttachment calls (any calls before, any calls in
between), a call with a view registered by an earlier call returns the index that earlier call
returned and does not extend the attachment registry; a call with a view not yet in the registry
returns the previous registry length and appends the view; and the indices of the whole sequence
are those of its calls in order. -/
theorem AddAttachment_deduplicates (node : RenderPassNode) (before between : List TextureView)
    (first again : TextureView) (same : again.view = first.view) :
    let reached := (node.AddAttachments before).2
    let registration := reached.AddAttachment first
    let later := (registration.2.AddAttachments between).2
    let repeated := later.AddAttachment again
    repeated.1 = registration.1 ∧ repeated.2.attachments = later.attachments ∧
      (first.view ∉ reached.attachments →
        registration.1 = reached.attachments.length ∧
          registration.2.attachments = reached.attachments ++ [first.view]) ∧
      (node.AddAttachments (before ++ first :: (between ++ [again]))).1 =
        (node.AddAttachments before).1 ++
          registration.1 :: ((registration.2.AddAttachments between).1 ++ [repeated.1]) := by
  intro reached registration later repeated
  obtain ⟨hmem, hidx⟩ := AddAttachment_registered reached first
  obtain ⟨added, hadded⟩ := AddAttachments_extends between registration.2
  have hlater : again.view ∈ later.attachments := by
    rw [same]
    show first.view ∈ ((reached.AddAttachment first).2.AddAttachments between).2.attachments
    rw [hadded]
    exact List.mem_append_left _ hmem
  have hrep : repeated = (later.attachments.indexOf again.view, later) :=
    AddAttachment_of_mem later again hlater
  refine ⟨?_, ?_, ?_, ?_⟩
  · rw [hrep]
    show later.attachments.indexOf again.view = (reached.AddAttachment first).1
    rw [hidx, same]
    show ((reached.AddAttachment first).2.AddAttachments between).2.attachments.indexOf first.view
      = _
    rw [hadded]
    exact List.indexOf_append_of_mem hmem
  · rw [hrep]
  · intro hnew
    exact AddAttachment_of_not_mem reached first hnew
  · rw [AddAttachments_append]
    simp only [AddAttachments]
    rw [AddAttachments_append]
    simp [AddAttachments, reached, registration, later, repeated]

/-- The scenario of C1 on a fresh builder: viewA, viewB, viewA yields 0, 1, 0, the third call
returning the index of the first and leaving the registry at its two entries. -/
theorem AddAttachment_deduplicates_witness :
    viewA.view = viewA.view ∧
    (exampleBuilder.AddAttachments [viewA, viewB, viewA]).1 = [0, 1, 0] ∧
    (((exampleBuilder.AddAttachment viewA).2.AddAttachments [viewB]).2.AddAttachment viewA).1 =
      (exampleBuilder.AddAttachment viewA).1 ∧
    (((exampleBuilder.AddAttachment viewA).2.AddAttachments [viewB]).2.AddAttachment
      viewA).2.attachments = [100, 200] :=
  ⟨rfl, by decide,
    (AddAttachment_deduplicates exampleBuilder [] [viewB] viewA viewA rfl).1,
    by decide⟩

/-! ### Subpass creation -/

theorem AddAttachment_frame (node : RenderPassNode) (view : TextureView) :
    (node.AddAttachment view).2.subpassDescriptions = node.subpassDescriptions ∧
      (node.AddAttachment view).2.preserveAttachmentReferences =
        node.preserveAttachmentReferences := by
  by_cases h : node.attachments.indexOf view.view < node.attachments.length <;>
    simp [AddAttachment, h]

theorem bindAttachment_frame (node : RenderPassNode) (view : TextureView) :
    (node.bindAttachment view).subpassDescriptions = node.subpassDescriptions ∧
      (node.bindAttachment view).preserveAttachmentReferences =
        node.preserveAttachmentReferences := by
  simpa [bindAttachment] using AddAttachment_frame node view

theorem bindAttachments_frame (views : List TextureView) :
    ∀ node : RenderPassNode,
      (node.bindAttachments views).subpassDescriptions = node.subpassDescriptions ∧
        (node.bindAttachments views).preserveAttachmentReferences =
          node.preserveAttachmentReferences := by
  induction views with
  | nil => intro node; simp [bindAttachments]
  | cons view views ih =>
    intro node
    have hrest := ih (node.bindAttachment view)
    have hfirst := bindAttachment_frame node view
    simp only [bindAttachments, List.foldl_cons] at hrest ⊢
    exact ⟨hrest.1.trans hfirst.1, hrest.2.trans hfirst.2⟩

theorem preserveList_nodup (attachmentCount : Nat)
    (attachmentReferences : List vk.AttachmentReference)
    (subpasses : List vk.SubpassDescription) (description : vk.SubpassDescription) :
    (preserveList attachmentCount attachmentReferences subpasses description).Nodup :=
  (List.nodup_range attachmentCount).filter _

theorem mem_preserveList (attachmentCount : Nat)
    (attachmentReferences : List vk.AttachmentReference)
    (subpasses : List vk.SubpassDescription) (description : vk.SubpassDescription)
    (attachment : Nat) :
    attachment ∈ preserveList attachmentCount attachmentReferences subpasses description ↔
      attachment < attachmentCount ∧
        attachment ∉ subpassAttachments attachmentReferences description ∧
        ∃ other ∈ subpasses, attachment ∈ subpassAttachments attachmentReferences other := by
  simp [preserveList, List.mem_filter, List.mem_range]

/-- C2: for every AddSubpass call on any builder, the call appends one subpass description and
one preserve list; every attachment index that is in the registry, is not among the input, color
or depth/stencil attachments of the new subpass, and is referenced by another subpass of the
pass occurs exactly once in that preserve list; no attachment the new subpass references occurs
in it.  In the scenario AddSubpass([], [0], none) then AddSubpass([0], [1], none) both preserve
lists are empty. -/
theorem AddSubpass_preserve_list :
    (∀ (node : RenderPassNode) (inputAttachments colorAttachments : List TextureView)
        (depthStencilAttachment : Option TextureView),
      ∃ description preserve,
        (node.AddSubpass inputAttachments colorAttachments
            depthStencilAttachment).subpassDescriptions =
          node.subpassDescriptions ++ [description] ∧
        (node.AddSubpass inputAttachments colorAttachments
            depthStencilAttachment).preserveAttachmentReferences =
          node.preserveAttachmentReferences ++ [preserve] ∧
        (∀ attachment : Nat,
          attachment < (node.AddSubpass inputAttachments colorAttachments
            depthStencilAttachment).attachments.length →
          attachment ∉ subpassAttachments (node.AddSubpass inputAttachments colorAttachments
            depthStencilAttachment).attachmentReferences description →
          (∃ other ∈ node.subpassDescriptions,
            attachment ∈ subpassAttachments (node.AddSubpass inputAttachments colorAttachments
              depthStencilAttachment).attachmentReferences other) →
          preserve.count attachment = 1) ∧
        (∀ attachment ∈ subpassAttachments (node.AddSubpass inputAttachments colorAttachments
            depthStencilAttachment).attachmentReferences description,
          attachment ∉ preserve)) ∧
    (∀ (renderArea : vk.Rect2D) (view0 view1 : TextureView), view0.view ≠ view1.view →
      (((new renderArea).AddSubpass [] [view0] none).AddSubpass [view0] [view1]
        none).preserveAttachmentReferences = [[], []]) := by
  constructor
  · intro node inputAttachments colorAttachments depthStencilAttachment
    have hbound : ∀ bound : RenderPassNode,
        bound.subpassDescriptions = node.subpassDescriptions →
        bound.preserveAttachmentReferences = node.preserveAttachmentReferences →
        ∀ description : vk.SubpassDescription,
        ∃ preserve,
          node.preserveAttachmentReferences ++
              [preserveList bound.attachments.length bound.attachmentReferences
                bound.subpassDescriptions description] =
            node.preserveAttachmentReferences ++ [preserve] ∧
          (∀ attachment : Nat, attachment < bound.attachments.length →
            attachment ∉ subpassAttachments bound.attachmentReferences description →
            (∃ other ∈ node.subpassDescriptions,
              attachment ∈ subpassAttachments bound.attachmentReferences other) →
            preserve.count attachment = 1) ∧
          (∀ attachment ∈ subpassAttachments bound.attachmentReferences description,
            attachment ∉ preserve) := by
      intro bound hsub _ description
      refine ⟨_, rfl, ?_, ?_⟩
      · intro attachment hlt hown hother
        refine List.count_eq_one_of_mem (preserveList_nodup _ _ _ _) ?_
        rw [mem_preserveList, hsub]
        exact ⟨hlt, hown, hother⟩
      · intro attachment hown hmem
        rw [mem_preserveList] at hmem
        exact hmem.2.1 hown
    have hinputs := bindAttachments_frame inputAttachments node
    have hcolors := bindAttachments_frame colorAttachments
      (node.bindAttachments inputAttachments)
    cases depthStencilAttachment with
    | none =>
      have hsub := hcolors.1.trans hinputs.1
      have hpre := hcolors.2.trans hinputs.2
      obtain ⟨preserve, h1, h2, h3⟩ := hbound _ hsub hpre
        { inputAttachmentCount := inputAttachments.length
          pInputAttachments := node.attachmentReferences.length
          colorAttachmentCount := colorAttachments.length
          pColorAttachments :=
            (node.bindAttachments inputAttachments).attachmentReferences.length
          pDepthStencilAttachment := NoDepthStencil }
      refine ⟨_, preserve, ?_, ?_, h2, h3⟩
      · simp only [AddSubpass, hsub]
      · simp only [AddSubpass, hpre]
        exact h1
    | some view =>
      have hdepth := bindAttachment_frame
        ((node.bindAttachments inputAttachments).bindAttachments colorAttachments) view
      have hsub := hdepth.1.trans (hcolors.1.trans hinputs.1)
      have hpre := hdepth.2.trans (hcolors.2.trans hinputs.2)
      obtain ⟨preserve, h1, h2, h3⟩ := hbound _ hsub hpre
        { inputAttachmentCount := inputAttachments.length
          pInputAttachments := node.attachmentReferences.length
          colorAttachmentCount := colorAttachments.length
          pColorAttachments :=
            (node.bindAttachments inputAttachments).attachmentReferences.length
          pDepthStencilAttachment :=
            ((node.bindAttachments inputAttachments).bindAttachments
              colorAttachments).attachmentReferences.length }
      refine ⟨_, preserve, ?_, ?_, h2, h3⟩
      · simp only [AddSubpass, hsub]
      · simp only [AddSubpass, hpre]
        exact h1
  · intro renderArea view0 view1 hne
    have hne2 : ¬ view1.view = view0.view := fun h => hne h.symm
    simp [AddSubpass, bindAttachments, bindAttachment, AddAttachment, new, preserveList,
      subpassAttachments, inputAttachmentsOf, colorAttachmentsOf, depthStencilAttachmentOf,
      RebasePointer, List.indexOf_cons, hne, hne2, List.range_succ]

/-- A run of C2 in which an attachment has to be preserved: after AddSubpass([], [viewA], none)
the call AddSubpass([], [viewB], none) adds subpass 1; attachment 0 is in the registry, is not
referenced by subpass 1 and is referenced by subpass 0, and it occurs exactly once in the
preserve list of subpass 1, which is [0]. -/
theorem AddSubpass_preserve_list_witness :
    ((exampleBuilder.AddSubpass [] [viewA] none).AddSubpass [] [viewB]
      none).preserveAttachmentReferences = [[], [0]] ∧
    ∃ description preserve,
      ((exampleBuilder.AddSubpass [] [viewA] none).AddSubpass [] [viewB] none).subpassDescriptions =
        (exampleBuilder.AddSubpass [] [viewA] none).subpassDescriptions ++ [description] ∧
      ((exampleBuilder.AddSubpass [] [viewA] none).AddSubpass [] [viewB]
        none).preserveAttachmentReferences =
        (exampleBuilder.AddSubpass [] [viewA] none).preserveAttachmentReferences ++ [preserve] ∧
      0 < ((exampleBuilder.AddSubpass [] [viewA] none).AddSubpass [] [viewB]
        none).attachments.length ∧
      0 ∉ subpassAttachments ((exampleBuilder.AddSubpass [] [viewA] none).AddSubpass [] [viewB]
        none).attachmentReferences description ∧
      (∃ other ∈ (exampleBuilder.AddSubpass [] [viewA] none).subpassDescriptions,
        0 ∈ subpassAttachments ((exampleBuilder.AddSubpass [] [viewA] none).AddSubpass [] [viewB]
          none).attachmentReferences other) ∧
      preserve.count 0 = 1 := by
  refine ⟨by decide, ?_⟩
  obtain ⟨description, preserve, h1, h2, h3, _⟩ := AddSubpass_preserve_list.1
    (exampleBuilder.AddSubpass [] [viewA] none) [] [viewB] none
  have hdescription : description = ⟨0, 1, 1, 1, NoDepthStencil⟩ := by
    have hadded : ((exampleBuilder.AddSubpass [] [viewA] none).AddSubpass [] [viewB]
        none).subpassDescriptions =
        (exampleBuilder.AddSubpass [] [viewA] none).subpassDescriptions ++
          [⟨0, 1, 1, 1, NoDepthStencil⟩] := by decide
    rw [hadded] at h1
    have hlast := List.append_cancel_left h1
    simpa using hlast.symm
  subst hdescription
  have hregistry : 0 < ((exampleBuilder.AddSubpass [] [viewA] none).AddSubpass [] [viewB]
      none).attachments.length := by decide
  have hown : 0 ∉ subpassAttachments ((exampleBuilder.AddSubpass [] [viewA] none).AddSubpass []
      [viewB] none).attachmentReferences ⟨0, 1, 1, 1, NoDepthStencil⟩ := by decide
  have hother : ∃ other ∈ (exampleBuilder.AddSubpass [] [viewA] none).subpassDescriptions,
      0 ∈ subpassAttachments ((exampleBuilder.AddSubpass [] [viewA] none).AddSubpass [] [viewB]
        none).attachmentReferences other := by decide
  exact ⟨_, preserve, h1, h2, hregistry, hown, hother, h3 0 hregistry hown hother⟩

/-! ### Clears -/

/-- C3: on a builder to which no subpass has been added, ClearColorAttachment for every index
and value and ClearDepthStencilAttachment for every value return false and give back the builder
unchanged in every member (attachment descriptions, clear values, subpass descriptions and
dependencies included), whatever the conflict predicate. -/
theorem Clear_without_subpass (conflict : RenderPassNode → Nat → Bool) (node : RenderPassNode)
    (noSubpass : node.subpassDescriptions = []) :
    (∀ (colorAttachment : Nat) (value : vk.ClearColorValue),
      ClearColorAttachment conflict node colorAttachment value = some (false, node)) ∧
    (∀ value : vk.ClearDepthStencilValue,
      ClearDepthStencilAttachment conflict node value = some (false, node)) := by
  constructor
  · intro colorAttachment value
    simp [ClearColorAttachment, noSubpass]
  · intro value
    simp [ClearDepthStencilAttachment, noSubpass]

/-- The scenario of C3: ClearColorAttachment(0, red) on a fresh builder returns false and the
builder is unchanged; so does ClearDepthStencilAttachment. -/
theorem Clear_without_subpass_witness :
    exampleBuilder.subpassDescriptions = [] ∧
    ClearColorAttachment (fun _ _ => false) exampleBuilder 0 ⟨[255, 0, 0, 255]⟩ =
      some (false, exampleBuilder) ∧
    ClearDepthStencilAttachment (fun _ _ => false) exampleBuilder ⟨0, 0⟩ =
      some (false, exampleBuilder) :=
  ⟨rfl,
    (Clear_without_subpass (fun _ _ => false) exampleBuilder rfl).1 0 ⟨[255, 0, 0, 255]⟩,
    (Clear_without_subpass (fun _ _ => false) exampleBuilder rfl).2 ⟨0, 0⟩⟩

end RenderPassNode

/-! ### Function nodes and subpass transitions -/

/-- C5, as the specification states it, fails: a SubpassFunctionNode invoked with (command
buffer 7, cycle 3, gpu, render pass 10, subpass index 1) issues only the call of its callback;
no next-subpass command precedes it. -/
theorem SubpassFunctionNode_advances_counterexample :
    (FunctionNodeBase.call (⟨drawInSubpass 9⟩ : SubpassFunctionNode Nat)
        (7, 3, exampleGPU, 10, 1) 0).1 = [NativeCall.command 7 9 1] ∧
    (FunctionNodeBase.call (⟨drawInSubpass 9⟩ : SubpassFunctionNode Nat)
        (7, 3, exampleGPU, 10, 1) 0).1 ≠
      CommandBuffer.nextSubpass 7 vk.SubpassContents.eInline ++
        (drawInSubpass 9 (7, 3, exampleGPU, 10, 1) 0).1 := by
  decide

/-- C5, amended: invoking a SubpassFunctionNode with (command buffer, cycle, gpu, render pass,
subpass index) does exactly what one run of the stored callback on those five arguments does,
in whatever state the callback finds: it issues the calls of that run and leaves the state that
run leaves; the node records no next-subpass command of its own. -/
theorem SubpassFunctionNode_call_eq_callback {σ : Type}
    (function : SubpassFunctionArgs → σ → Trace × σ)
    (commandBuffer cycle : Nat) (gpu : GPU) (renderPass subpassIndex : Nat) (shared : σ) :
    FunctionNodeBase.call (⟨function⟩ : SubpassFunctionNode σ)
        (commandBuffer, cycle, gpu, renderPass, subpassIndex) shared
      = function (commandBuffer, cycle, gpu, renderPass, subpassIndex) shared := rfl

/-- C6: invoking a NextSubpassFunctionNode with (command buffer, cycle, gpu, render pass,
subpass index) issues one next-subpass command with inline contents on that command buffer,
then exactly the calls of one run of the stored callback on the same five arguments, and
nothing after them; the callback runs in the state the invocation finds and the invocation
leaves the state that run leaves. -/
theorem NextSubpassFunctionNode_call_eq {σ : Type}
    (function : SubpassFunctionArgs → σ → Trace × σ)
    (commandBuffer cycle : Nat) (gpu : GPU) (renderPass subpassIndex : Nat) (shared : σ) :
    NextSubpassFunctionNode.call ⟨⟨function⟩⟩ commandBuffer cycle gpu renderPass subpassIndex
        shared
      = (NativeCall.nextSubpass commandBuffer vk.SubpassContents.eInline ::
          (function (commandBuffer, cycle, gpu, renderPass, subpassIndex) shared).1,
         (function (commandBuffer, cycle, gpu, renderPass, subpassIndex) shared).2) := rfl

/-- C7: invoking a NextSubpassNode issues exactly one call, a next-subpass command with inline
contents on the given command buffer, and what it issues is the same for every cycle and gpu;
the node stores no callback to invoke. -/
theorem NextSubpassNode_call_eq (node : NextSubpassNode) (commandBuffer cycle : Nat) (gpu : GPU) :
    node.call commandBuffer cycle gpu =
        [NativeCall.nextSubpass commandBuffer vk.SubpassContents.eInline] ∧
      ∀ (otherCycle : Nat) (otherGpu : GPU),
        node.call commandBuffer otherCycle otherGpu = node.call commandBuffer cycle gpu :=
  ⟨rfl, fun _ _ => rfl⟩

/-- C8: invoking a FunctionNode with (command buffer, cycle, gpu) does exactly what one run of
the callback it was constructed with does on exactly those arguments, in whatever state the
callback finds: it issues the calls of that run and leaves the state that run leaves; the node
adds no native call of its own, before or after. -/
theorem FunctionNode_call_eq_callback {σ : Type} (function : FunctionArgs → σ → Trace × σ)
    (commandBuffer cycle : Nat) (gpu : GPU) (shared : σ) :
    FunctionNodeBase.call (⟨function⟩ : FunctionNode σ) (commandBuffer, cycle, gpu) shared
      = function (commandBuffer, cycle, gpu) shared := rfl

/-! ### Replay -/

theorem replay_fold {σ : Type} (commandBuffer cycle : Nat) (gpu : GPU)
    (nodes : List (NodeVariant σ)) :
    ∀ (state : RecorderState × σ) (issued : Trace),
      nodes.foldl (fun recorded node =>
          let invoked := invoke commandBuffer cycle gpu recorded.1 node
          (invoked.1, recorded.2 ++ invoked.2)) (state, issued) =
        ((replay commandBuffer cycle gpu state nodes).1,
          issued ++ (replay commandBuffer cycle gpu state nodes).2) := by
  induction nodes with
  | nil => intro state issued; simp [replay]
  | cons node nodes ih =>
    intro state issued
    simp only [replay, List.foldl_cons]
    rw [ih, ih (invoke commandBuffer cycle gpu state node).1
      ([] ++ (invoke commandBuffer cycle gpu state node).2)]
    simp

theorem replay_nil {σ : Type} (commandBuffer cycle : Nat) (gpu : GPU)
    (state : RecorderState × σ) :
    replay commandBuffer cycle gpu state [] = (state, []) := rfl

theorem replay_cons {σ : Type} (commandBuffer cycle : Nat) (gpu : GPU)
    (state : RecorderState × σ) (node : NodeVariant σ) (nodes : List (NodeVariant σ)) :
    replay commandBuffer cycle gpu state (node :: nodes) =
      ((replay commandBuffer cycle gpu (invoke commandBuffer cycle gpu state node).1 nodes).1,
        (invoke commandBuffer cycle gpu state node).2 ++
          (replay commandBuffer cycle gpu (invoke commandBuffer cycle gpu state node).1 nodes).2) := by
  show List.foldl _ _ (node :: nodes) = _
  rw [List.foldl_cons, replay_fold]
  simp

theorem replay_append {σ : Type} (commandBuffer cycle : Nat) (gpu : GPU)
    (front back : List (NodeVariant σ)) :
    ∀ state : RecorderState × σ,
      replay commandBuffer cycle gpu state (front ++ back) =
        ((replay commandBuffer cycle gpu (replay commandBuffer cycle gpu state front).1 back).1,
          (replay commandBuffer cycle gpu state front).2 ++
            (replay commandBuffer cycle gpu (replay commandBuffer cycle gpu state front).1 back).2) := by
  induction front with
  | nil => intro state; simp [replay_nil]
  | cons node front ih =>
    intro state
    rw [List.cons_append, replay_cons, ih, replay_cons]
    simp

/-- C4, as the specification states it, fails, in two ways.  In a render pass with three
subpasses declared, begun by its builder node and ended by an end node, with a =
NextSubpassFunctionNode(draw 1 in the subpass received) and b = NextSubpassFunctionNode(draw 2
in the subpass received): replaying [builder, a, b, end] issues the traces of the four nodes in
that order, but replaying [builder, b, a, end] does not issue the original trace with the calls
of a and b swapped, since each callback now receives the other subpass index.  And with two
FunctionNodes whose callbacks share a counter, replaying them in the other order does not issue
the original calls swapped, since each callback now finds the other count. -/
theorem replay_swap_counterexample :
    nodeTraces 7 3 exampleGPU (⟨0, 0⟩, 0)
        [NodeVariant.renderPassNode exampleRenderPass,
         NodeVariant.nextSubpassFunctionNode ⟨⟨drawInSubpass 1⟩⟩,
         NodeVariant.nextSubpassFunctionNode ⟨⟨drawInSubpass 2⟩⟩,
         NodeVariant.renderPassEndNode ⟨⟩] =
      [[NativeCall.createRenderPass 10, NativeCall.createFramebuffer 11 10 [100, 200],
        NativeCall.beginRenderPass 7 10 11 ⟨0, 0, 64, 64⟩ []],
       [NativeCall.nextSubpass 7 vk.SubpassContents.eInline, NativeCall.command 7 1 1],
       [NativeCall.nextSubpass 7 vk.SubpassContents.eInline, NativeCall.command 7 2 2],
       [NativeCall.endRenderPass 7]] ∧
    exampleRenderPass.subpassDescriptions.length = 3 ∧
    (replay 7 3 exampleGPU (⟨0, 0⟩, 0)
        [NodeVariant.renderPassNode exampleRenderPass,
         NodeVariant.nextSubpassFunctionNode ⟨⟨drawInSubpass 2⟩⟩,
         NodeVariant.nextSubpassFunctionNode ⟨⟨drawInSubpass 1⟩⟩,
         NodeVariant.renderPassEndNode ⟨⟩]).2 =
      [NativeCall.createRenderPass 10, NativeCall.createFramebuffer 11 10 [100, 200],
       NativeCall.beginRenderPass 7 10 11 ⟨0, 0, 64, 64⟩ [],
       NativeCall.nextSubpass 7 vk.SubpassContents.eInline, NativeCall.command 7 2 1,
       NativeCall.nextSubpass 7 vk.SubpassContents.eInline, NativeCall.command 7 1 2,
       NativeCall.endRenderPass 7] ∧
    (replay 7 3 exampleGPU (⟨0, 0⟩, 0)
        [NodeVariant.renderPassNode exampleRenderPass,
         NodeVariant.nextSubpassFunctionNode ⟨⟨drawInSubpass 2⟩⟩,
         NodeVariant.nextSubpassFunctionNode ⟨⟨drawInSubpass 1⟩⟩,
         NodeVariant.renderPassEndNode ⟨⟩]).2 ≠
      [NativeCall.createRenderPass 10, NativeCall.createFramebuffer 11 10 [100, 200],
        NativeCall.beginRenderPass 7 10 11 ⟨0, 0, 64, 64⟩ []] ++
      [NativeCall.nextSubpass 7 vk.SubpassContents.eInline, NativeCall.command 7 2 2] ++
      [NativeCall.nextSubpass 7 vk.SubpassContents.eInline, NativeCall.command 7 1 1] ++
      [NativeCall.endRenderPass 7] ∧
    nodeTraces 7 3 exampleGPU (⟨0, 0⟩, 0)
        [NodeVariant.functionNode ⟨drawCounted 5⟩, NodeVariant.functionNode ⟨drawCounted 6⟩] =
      [[NativeCall.command 7 5 0], [NativeCall.command 7 6 1]] ∧
    (replay 7 3 exampleGPU (⟨0, 0⟩, 0)
        [NodeVariant.functionNode ⟨drawCounted 6⟩, NodeVariant.functionNode ⟨drawCounted 5⟩]).2 =
      [NativeCall.command 7 6 0, NativeCall.command 7 5 1] ∧
    (replay 7 3 exampleGPU (⟨0, 0⟩, 0)
        [NodeVariant.functionNode ⟨drawCounted 6⟩, NodeVariant.functionNode ⟨drawCounted 5⟩]).2 ≠
      [NativeCall.command 7 6 1] ++ [NativeCall.command 7 5 0] := by
  decide

/-- C4, amended: replaying a list of nodes against one command buffer issues the concatenation,
in list order, of the traces of the individual nodes, each node's trace being what it issues
with the render pass and subpass index the recorder holds, and the state the callbacks share,
on reaching it.  When each of the two nodes swapped issues the same calls whatever those are and
changes none of them, the trace of the swapped sequence is the original trace with exactly
those two nodes' calls swapped.  Such nodes are every RenderPassEndNode and every FunctionNode
whose callback neither reads nor writes the shared state. -/
theorem replay_trace {σ : Type} (commandBuffer cycle : Nat) (gpu : GPU) :
    (∀ (state : RecorderState × σ) (nodes : List (NodeVariant σ)),
      (replay commandBuffer cycle gpu state nodes).2 =
        (nodeTraces commandBuffer cycle gpu state nodes).flatten) ∧
    (∀ (state : RecorderState × σ) (before between after : List (NodeVariant σ))
        (a b : NodeVariant σ) (callsOfA callsOfB : Trace),
      (∀ reached : RecorderState × σ,
        invoke commandBuffer cycle gpu reached a = (reached, callsOfA)) →
      (∀ reached : RecorderState × σ,
        invoke commandBuffer cycle gpu reached b = (reached, callsOfB)) →
      (replay commandBuffer cycle gpu state (before ++ a :: (between ++ b :: after))).2 =
        (replay commandBuffer cycle gpu state before).2 ++ callsOfA ++
        (replay commandBuffer cycle gpu
          (replay commandBuffer cycle gpu state before).1 between).2 ++ callsOfB ++
        (replay commandBuffer cycle gpu (replay commandBuffer cycle gpu
          (replay commandBuffer cycle gpu state before).1 between).1 after).2 ∧
      (replay commandBuffer cycle gpu state (before ++ b :: (between ++ a :: after))).2 =
        (replay commandBuffer cycle gpu state before).2 ++ callsOfB ++
        (replay commandBuffer cycle gpu
          (replay commandBuffer cycle gpu state before).1 between).2 ++ callsOfA ++
        (replay commandBuffer cycle gpu (replay commandBuffer cycle gpu
          (replay commandBuffer cycle gpu state before).1 between).1 after).2) ∧
    (∀ (node : RenderPassEndNode) (reached : RecorderState × σ),
      invoke commandBuffer cycle gpu reached (NodeVariant.renderPassEndNode node) =
        (reached, [NativeCall.endRenderPass commandBuffer])) ∧
    (∀ (calls : FunctionArgs → Trace) (reached : RecorderState × σ),
      invoke commandBuffer cycle gpu reached
          (NodeVariant.functionNode ⟨fun args shared => (calls args, shared)⟩) =
        (reached, calls (commandBuffer, cycle, gpu))) := by
  refine ⟨?_, ?_, fun _ _ => rfl, fun _ _ => rfl⟩
  · intro state nodes
    induction nodes generalizing state with
    | nil => rfl
    | cons node nodes ih =>
      rw [replay_cons]
      simp only [nodeTraces, List.flatten_cons]
      rw [ih]
  · intro state before between after a b callsOfA callsOfB ha hb
    have swap : ∀ (x y : NodeVariant σ) (callsOfX callsOfY : Trace),
        (∀ reached : RecorderState × σ,
          invoke commandBuffer cycle gpu reached x = (reached, callsOfX)) →
        (∀ reached : RecorderState × σ,
          invoke commandBuffer cycle gpu reached y = (reached, callsOfY)) →
        (replay commandBuffer cycle gpu state (before ++ x :: (between ++ y :: after))).2 =
          (replay commandBuffer cycle gpu state before).2 ++ callsOfX ++
          (replay commandBuffer cycle gpu
            (replay commandBuffer cycle gpu state before).1 between).2 ++ callsOfY ++
          (replay commandBuffer cycle gpu (replay commandBuffer cycle gpu
            (replay commandBuffer cycle gpu state before).1 between).1 after).2 := by
      intro x y callsOfX callsOfY hx hy
      rw [replay_append, replay_cons, replay_append, replay_cons]
      simp only [hx, hy]
      simp [List.append_assoc]
    exact ⟨swap a b callsOfA callsOfB ha hb, swap b a callsOfB callsOfA hb ha⟩

/-- A run of C4, amended: in a render pass begun by its builder and ended by the end node, two
function nodes whose callbacks ignore the shared state stand around a node that advances the
subpass; the sequence with those two swapped issues the original calls with the calls of those
two nodes swapped. -/
theorem replay_trace_witness :
    (replay 7 3 exampleGPU (⟨0, 0⟩, 0)
        ([NodeVariant.renderPassNode exampleRenderPass] ++
          NodeVariant.functionNode ⟨draw 5⟩ ::
          ([NodeVariant.nextSubpassFunctionNode ⟨⟨drawInSubpass 1⟩⟩] ++
            NodeVariant.functionNode ⟨draw 6⟩ :: [NodeVariant.renderPassEndNode ⟨⟩]))).2 =
      [NativeCall.createRenderPass 10, NativeCall.createFramebuffer 11 10 [100, 200],
       NativeCall.beginRenderPass 7 10 11 ⟨0, 0, 64, 64⟩ [],
       NativeCall.command 7 5 0, NativeCall.nextSubpass 7 vk.SubpassContents.eInline,
       NativeCall.command 7 1 1, NativeCall.command 7 6 0, NativeCall.endRenderPass 7] ∧
    (replay 7 3 exampleGPU (⟨0, 0⟩, 0)
        ([NodeVariant.renderPassNode exampleRenderPass] ++
          NodeVariant.functionNode ⟨draw 6⟩ ::
          ([NodeVariant.nextSubpassFunctionNode ⟨⟨drawInSubpass 1⟩⟩] ++
            NodeVariant.functionNode ⟨draw 5⟩ :: [NodeVariant.renderPassEndNode ⟨⟩]))).2 =
      [NativeCall.createRenderPass 10, NativeCall.createFramebuffer 11 10 [100, 200],
       NativeCall.beginRenderPass 7 10 11 ⟨0, 0, 64, 64⟩ [],
       NativeCall.command 7 6 0, NativeCall.nextSubpass 7 vk.SubpassContents.eInline,
       NativeCall.command 7 1 1, NativeCall.command 7 5 0, NativeCall.endRenderPass 7] := by
  have swapped := (replay_trace 7 3 exampleGPU).2.1 (⟨0, 0⟩, 0)
    [NodeVariant.renderPassNode exampleRenderPass]
    [NodeVariant.nextSubpassFunctionNode ⟨⟨drawInSubpass 1⟩⟩]
    [NodeVariant.renderPassEndNode ⟨⟩]
    (NodeVariant.functionNode ⟨draw 5⟩) (NodeVariant.functionNode ⟨draw 6⟩)
    [NativeCall.command 7 5 0] [NativeCall.command 7 6 0]
    (fun _ => rfl) (fun _ => rfl)
  exact ⟨swapped.1.trans (by decide), swapped.2.trans (by decide)⟩

/-! ### Lifetime of the storage -/

namespace StorageLifetime

theorem Invariant_initial : Invariant initial := by
  simp [Invariant, initial]

theorem Invariant_step (lifetime : StorageLifetime) (event : LifetimeEvent)
    (h : Invariant lifetime) : Invariant (lifetime.step event) := by
  obtain ⟨builderHolds, cycleHolds, registered, signalled, destroyed⟩ := lifetime
  cases event <;> cases builderHolds <;> cases cycleHolds <;> cases registered <;>
    cases signalled <;> simp_all [Invariant, step, dropped]

theorem Invariant_run (events : List LifetimeEvent) :
    ∀ lifetime : StorageLifetime, Invariant lifetime → Invariant (lifetime.run events) := by
  induction events with
  | nil => intro lifetime h; exact h
  | cons event events ih =>
    intro lifetime h
    exact ih _ (Invariant_step lifetime event h)

/-- C9: after any run of registrations, discards of the builder and completion signals on the
storage of a freshly constructed builder, the destructor of the storage (which releases the
render pass and the framebuffer) has run at most once; if the storage was registered against the
completion cycle and has been destroyed, the completion condition of the cycle is satisfied (so
at no moment is a registered storage destroyed before completion); once the completion
condition is satisfied and the builder has let go of the storage, it has been destroyed exactly
once; and it has been destroyed exactly when the builder has let go of it and the cycle, if it
was registered against one, has completed. -/
theorem Storage_destroyed_once_after_completion (events : List LifetimeEvent) :
    (initial.run events).destroyed ≤ 1 ∧
    ((initial.run events).registered = true → 1 ≤ (initial.run events).destroyed →
      (initial.run events).signalled = true) ∧
    ((initial.run events).signalled = true → (initial.run events).builderHolds = false →
      (initial.run events).destroyed = 1) ∧
    ((initial.run events).destroyed = 1 ↔
      ((initial.run events).builderHolds = false ∧
        ((initial.run events).registered = true → (initial.run events).signalled = true))) := by
  have h := Invariant_run events initial Invariant_initial
  generalize initial.run events = lifetime at h
  obtain ⟨builderHolds, cycleHolds, registered, signalled, destroyed⟩ := lifetime
  cases builderHolds <;> cases cycleHolds <;> cases registered <;> cases signalled <;>
    simp_all [Invariant]

/-- A life of C9: registered, then the graph discarded while the work is in flight (nothing is
destroyed yet), then completion signalled: the storage is registered, destroyed and the cycle is
signalled, and it has been destroyed exactly once. -/
theorem Storage_destroyed_once_after_completion_witness :
    (initial.run [LifetimeEvent.register, LifetimeEvent.discard]).destroyed = 0 ∧
    (initial.run [LifetimeEvent.register, LifetimeEvent.discard, LifetimeEvent.signal]).registered
      = true ∧
    (initial.run [LifetimeEvent.register, LifetimeEvent.discard, LifetimeEvent.signal]).builderHolds
      = false ∧
    (initial.run [LifetimeEvent.register, LifetimeEvent.discard, LifetimeEvent.signal]).signalled
      = true ∧
    (initial.run [LifetimeEvent.register, LifetimeEvent.discard, LifetimeEvent.signal]).destroyed
      = 1 :=
  ⟨by decide, by decide, by decide,
    (Storage_destroyed_once_after_completion
      [LifetimeEvent.register, LifetimeEvent.discard, LifetimeEvent.signal]).2.1
      (by decide) (by decide),
    (Storage_destroyed_once_after_completion
      [LifetimeEvent.register, LifetimeEvent.discard, LifetimeEvent.signal]).2.2.1
      (by decide) (by decide)⟩

end StorageLifetime

end interconnect.node

namespace format

theorem formats_all_wholeBytes : formats.all Declaration.wholeBytes = true := by
  decide

/-- C10: `FORMAT` stores, under the declared name, the bits per block its declaring line passes
divided by 8 (integer division), for every argument; the table declares exactly the 80 formats
listed, each with the bits per block its line of `format.h` passes and the bytes per block
stored for it; and for every format of the table the declared bits per block are a positive
multiple of 8, so the stored bytes per block are non-zero and multiplied by 8 give back the
declared bits per block. -/
theorem formats_bitsPerBlock_whole_bytes :
    (∀ (name : String) (bitsPerBlock : Nat) (format : String) (args : FormatArgs),
      FORMAT name bitsPerBlock format args =
        [{ name := name, bitsPerBlock := bitsPerBlock,
           value := { bpb := bitsPerBlock / 8, vkFormat := format, args := args } }]) ∧
    formats.map (fun declaration =>
        (declaration.name, declaration.bitsPerBlock, declaration.value.bpb)) =
      [("R8Uint", 8, 1), ("R8Sint", 8, 1), ("R8Unorm", 8, 1), ("R8Snorm", 8, 1),
       ("R8Srgb", 8, 1), ("R16Uint", 16, 2), ("R16Sint", 16, 2), ("R16Unorm", 16, 2),
       ("R16Snorm", 16, 2), ("R16Float", 16, 2), ("R8G8Uint", 16, 2), ("R8G8Sint", 16, 2),
       ("R8G8Unorm", 16, 2), ("R8G8Snorm", 16, 2), ("R8G8Srgb", 16, 2),
       ("B5G6R5Unorm", 16, 2), ("R5G6B5Unorm", 16, 2), ("B5G5R5A1Unorm", 16, 2),
       ("A1B5G5R5Unorm", 16, 2), ("R32Uint", 32, 4), ("R32Sint", 32, 4),
       ("R32Float", 32, 4), ("R16G16Uint", 32, 4), ("R16G16Sint", 32, 4),
       ("R16G16Unorm", 32, 4), ("R16G16Snorm", 32, 4), ("R16G16Float", 32, 4),
       ("B10G11R11Float", 32, 4), ("R8G8B8A8Uint", 32, 4), ("R8G8B8A8Sint", 32, 4),
       ("R8G8B8A8Unorm", 32, 4), ("R8G8B8A8Snorm", 32, 4), ("R8G8B8A8Srgb", 32, 4),
       ("B8G8R8A8Uint", 32, 4), ("B8G8R8A8Sint", 32, 4), ("B8G8R8A8Unorm", 32, 4),
       ("B8G8R8A8Snorm", 32, 4), ("B8G8R8A8Srgb", 32, 4), ("A2B10G10R10Uint", 32, 4),
       ("A2B10G10R10Sint", 32, 4), ("A2B10G10R10Unorm", 32, 4),
       ("A2B10G10R10Snorm", 32, 4), ("A8B8G8R8Uint", 32, 4), ("A8B8G8R8Sint", 32, 4),
       ("A8B8G8R8Unorm", 32, 4), ("A8B8G8R8Snorm", 32, 4), ("A8B8G8R8Srgb", 32, 4),
       ("E5B9G9R9Float", 32, 4), ("R32G32Uint", 32 * 2, 8), ("R32G32Sint", 32 * 2, 8),
       ("R32G32Float", 32 * 2, 8), ("R16G16B16A16Uint", 16 * 4, 8),
       ("R16G16B16A16Sint", 16 * 4, 8), ("R16G16B16A16Unorm", 16 * 4, 8),
       ("R16G16B16A16Snorm", 16 * 4, 8), ("R16G16B16A16Float", 16 * 4, 8),
       ("R32G32B32A32Uint", 32 * 4, 16), ("R32G32B32A32Sint", 32 * 4, 16),
       ("R32G32B32A32Float", 32 * 4, 16), ("BC1Unorm", 64, 8), ("BC1Srgb", 64, 8),
       ("BC2Unorm", 64, 8), ("BC2Srgb", 64, 8), ("BC3Unorm", 64, 8), ("BC3Srgb", 64, 8),
       ("BC4Unorm", 64, 8), ("BC4Snorm", 64, 8), ("Astc4x4Unorm", 128, 16),
       ("Astc4x4Srgb", 128, 16), ("BC5Unorm", 128, 16), ("BC5Snorm", 128, 16),
       ("Bc6HUfloat", 128, 16), ("Bc6HSfloat", 128, 16), ("BC7Unorm", 128, 16),
       ("BC7Srgb", 128, 16), ("D16Unorm", 16, 2), ("D32Float", 32, 4),
       ("D24UnormS8Uint", 32, 4), ("D32FloatS8Uint", 32, 4), ("S8UintD24Unorm", 32, 4)] ∧
    (∀ declaration ∈ formats,
      0 < declaration.bitsPerBlock ∧ 8 ∣ declaration.bitsPerBlock ∧
        declaration.value.bpb = declaration.bitsPerBlock / 8 ∧
        declaration.value.bpb ≠ 0 ∧ declaration.value.bpb * 8 = declaration.bitsPerBlock) := by
  refine ⟨fun _ _ _ _ => rfl, by decide, ?_⟩
  intro declaration declared
  have hall := List.all_eq_true.mp formats_all_wholeBytes declaration declared
  simp only [Declaration.wholeBytes, Bool.and_eq_true, decide_eq_true_eq] at hall
  obtain ⟨⟨⟨hpos, hmod⟩, hne⟩, hmul⟩ := hall
  exact ⟨hpos, Nat.dvd_of_mod_eq_zero hmod, by omega, hne, hmul⟩

/-- Two declarations of C10: R8Uint, declared with 8 bits per block, stores 1 byte per block, and
R32G32B32A32Float, declared with `32 * 4` bits per block, stores 16 bytes per block. -/
theorem formats_bitsPerBlock_whole_bytes_witness :
    ({ name := "R8Uint", bitsPerBlock := 8,
       value := { bpb := 1, vkFormat := "eR8Uint", args := {} } } : Declaration) ∈ formats ∧
    (1 : Nat) * 8 = 8 ∧
    ({ name := "R32G32B32A32Float", bitsPerBlock := 128,
       value := { bpb := 16, vkFormat := "eR32G32B32A32Sfloat", args := {} } } : Declaration)
      ∈ formats ∧
    (16 : Nat) * 8 = 128 ∧
    FORMAT "R32G32B32A32Float" (32 * 4) "eR32G32B32A32Sfloat" =
      [{ name := "R32G32B32A32Float", bitsPerBlock := 128,
         value := { bpb := 16, vkFormat := "eR32G32B32A32Sfloat", args := {} } }] :=
  ⟨by decide,
    (formats_bitsPerBlock_whole_bytes.2.2
      { name := "R8Uint", bitsPerBlock := 8,
        value := { bpb := 1, vkFormat := "eR8Uint", args := {} } } (by decide)).2.2.2.2,
    by decide,
    (formats_bitsPerBlock_whole_bytes.2.2
      { name := "R32G32B32A32Float", bitsPerBlock := 128,
        value := { bpb := 16, vkFormat := "eR32G32B32A32Sfloat", args := {} } }
      (by decide)).2.2.2.2,
    formats_bitsPerBlock_whole_bytes.1 "R32G32B32A32Float" (32 * 4) "eR32G32B32A32Sfloat" {}⟩

end format

end skyline.gpu
